import Mathlib

/-!
Verification development for WasmCSVision.

The repository is a browser front end (src/index.js) over a WebAssembly CSV
analysis engine. This file gives a shallow embedding of:

* the report data model (`AnalysisReport`, `ColumnReport`, `TypeDetails`)
  exchanged between the engine and the presentation layer;
* the presentation and export functions of src/index.js (`exportToCSV`,
  `displayResults`, `formatAnalyzedValues`, `formatConfidence`,
  `getTypeLabel`, the analyze-click handler);
* the sampling-configuration state machine wired up in `setupUI`
  (toggle checkbox, numeric sample-size field, analyzer reconstruction);
* the analysis engine itself, modelled from the specification because the
  Rust/wasm sources (wasm/src/lib.rs) are not part of the repository
  snapshot; only the JavaScript caller is.

JavaScript numbers used for counts are modelled as `Nat`; the confidence
fraction is modelled as `Rat`; formatting of percentages follows the
decimal semantics of `Number.prototype.toFixed(1)` on the nonnegative
values that actually occur. Strings are Lean `String`s; all helpers are
written over `List Char` so that they evaluate inside the kernel.
-/

/-- `Array.prototype.join(sep)` of JavaScript: concatenate the entries,
separating consecutive entries with `sep`. -/
def jsJoin (sep : String) : List String → String
  | [] => ""
  | [x] => x
  | x :: xs => x ++ sep ++ jsJoin sep xs

/-- JavaScript `a || b` specialized to an optional string `a`:
`null`/`undefined` and the empty string are falsy and select `b`. -/
def jsOr (v : Option String) (dflt : String) : String :=
  match v with
  | none => dflt
  | some s => if s = "" then dflt else s

/-- Per-column type details of the report (`type_details` in index.js). -/
structure TypeDetails where
  confidence : Rat
  subtypes : List String
  format_examples : List String
deriving DecidableEq

/-- Per-column entry of the analysis report, as consumed by index.js. -/
structure ColumnReport where
  name : String
  type_name : String
  type_details : TypeDetails
  total_count : Nat
  analyzed_count : Nat
  unique_values : Nat
  null_count : Nat
  min_value : Option String
  max_value : Option String
  min_length : Nat
  max_length : Nat
deriving DecidableEq

/-- Document-level analysis report (`analysis` in index.js). -/
structure AnalysisReport where
  row_count : Nat
  column_count : Nat
  sample_size : Option Int
  columns : List ColumnReport
deriving DecidableEq

/-- The label table of `getTypeLabel` (index.js lines 18-33). -/
def typeLabels : List (String × String) :=
  [("integer", "Entier"),
   ("float", "Décimal"),
   ("boolean", "Booléen"),
   ("date", "Date"),
   ("datetime", "Date et heure"),
   ("time", "Heure"),
   ("email", "Email"),
   ("url", "URL"),
   ("ip", "Adresse IP"),
   ("string", "Texte"),
   ("null", "Nul")]

/-- `getTypeLabel` of index.js: `labels[type] || type`. -/
def getTypeLabel (t : String) : String :=
  match typeLabels.lookup t with
  | some l => l
  | none => t

/-- `x.toFixed(1)` for the nonnegative numbers this code base formats:
round `x` to the nearest tenth (ties upward, as toFixed does for positive
arguments) and print it as `<integer>.<digit>`. -/
def toFixed1 (q : Rat) : String :=
  toString ((Rat.floor (q * 10 + 1 / 2)).toNat / 10) ++ "." ++
    toString ((Rat.floor (q * 10 + 1 / 2)).toNat % 10)

/-- `formatConfidence` of index.js: `(confidence * 100).toFixed(1) + '%'`. -/
def formatConfidence (confidence : Rat) : String :=
  toFixed1 (confidence * 100) ++ "%"

/-- `formatAnalyzedValues` of index.js (lines 58-64): when the two counts
are equal it returns the literal `(100%)` suffix without dividing;
otherwise it formats `(analyzed / total) * 100` to one decimal. -/
def formatAnalyzedValues (analyzed total : Nat) : String :=
  if analyzed = total then
    toString analyzed ++ " (100%)"
  else
    toString analyzed ++ " (" ++
      toFixed1 ((analyzed : Rat) / (total : Rat) * 100) ++ "%)"

/-- The thirteen header labels of the export (index.js lines 69-83). -/
def exportHeaderFields : List String :=
  ["Colonne", "Type", "Confiance", "Valeurs analysées", "Sous-types",
   "Exemples", "Valeurs totales", "Valeurs uniques", "Valeurs nulles",
   "Min", "Max", "Longueur Min", "Longueur Max"]

/-- Header line of the export: the thirteen labels joined by `;`. -/
def exportHeaderLine : String :=
  jsJoin (";") exportHeaderFields

/-- The thirteen cells of one export row (index.js lines 86-100), in the
order of the source array; every cell is computed from fields of the one
`ColumnReport` passed in. -/
def exportCells (stats : ColumnReport) : List String :=
  [stats.name,
   getTypeLabel stats.type_name,
   formatConfidence stats.type_details.confidence,
   formatAnalyzedValues stats.analyzed_count stats.total_count,
   jsJoin (", ") (stats.type_details.subtypes.map getTypeLabel),
   jsJoin (", ") stats.type_details.format_examples,
   toString stats.total_count,
   toString stats.unique_values,
   toString stats.null_count,
   jsOr stats.min_value (""),
   jsOr stats.max_value (""),
   toString stats.min_length,
   toString stats.max_length]

/-- One data row of the export: the thirteen cells joined by `;`. -/
def exportRow (stats : ColumnReport) : String :=
  jsJoin (";") (exportCells stats)

/-- `exportToCSV` of index.js (lines 67-104): a UTF-8 byte-order mark,
then the header line and one row per column of the report, joined by
newlines. A pure function of the report. -/
def exportToCSV (analysis : AnalysisReport) : String :=
  "\uFEFF" ++ jsJoin ("\n") (exportHeaderLine :: analysis.columns.map exportRow)

/-- The thirteen table cells of one HTML result row (index.js lines
161-185). Index 5 is the examples cell, which truncates
`format_examples` to its first three entries via `slice(0, 3)`;
indices 9 and 10 render absent extrema as a dash via `|| '-'`. -/
def displayCellsOf (stats : ColumnReport) : List String :=
  [stats.name,
   getTypeLabel stats.type_name,
   formatConfidence stats.type_details.confidence,
   formatAnalyzedValues stats.analyzed_count stats.total_count,
   jsJoin (", ") (stats.type_details.subtypes.map getTypeLabel),
   jsJoin (", ") (stats.type_details.format_examples.take 3),
   toString stats.total_count,
   toString stats.unique_values,
   toString stats.null_count,
   jsOr stats.min_value ("-"),
   jsOr stats.max_value ("-"),
   toString stats.min_length,
   toString stats.max_length]

/-- One `<tr>` of the HTML results table (inter-tag whitespace of the
source template omitted). -/
def displayRowHTML (stats : ColumnReport) : String :=
  "<tr>" ++
    jsJoin ("") ((displayCellsOf stats).map (fun c => "<td>" ++ c ++ "</td>")) ++
    "</tr>"

/-- The analysis-mode summary line (index.js line 137): the JavaScript
conditional `analysis.sample_size ? ... : ...` — `null` (and the number
`0`, which is falsy) select the full-analysis message, any other number
selects the sampling message with the cap interpolated. -/
def samplingModeText : Option Int → String
  | none => "Analyse complète"
  | some n =>
      if n = 0 then "Analyse complète"
      else "Échantillonnage (" ++ toString n ++ " valeurs max)"

/-- The column-table heading of the results template (index.js lines
139-158), inter-tag whitespace omitted. -/
def tableHeaderHTML : String :=
  "<h2>Analyse des colonnes</h2><table><thead><tr><th>Colonne</th>" ++
  "<th>Type</th><th>Confiance</th><th>Valeurs analysées</th>" ++
  "<th>Sous-types</th><th>Exemples</th><th>Valeurs totales</th>" ++
  "<th>Valeurs uniques</th><th>Valeurs nulles</th><th>Min</th>" ++
  "<th>Max</th><th>Longueur Min</th><th>Longueur Max</th></tr></thead><tbody>"

/-- `displayResults` of index.js (lines 118-205) as a function from the
report to the HTML written into the results area. The file-size,
processing-speed and execution-time strings come from `performance.now`
and floating-point logarithm formatting, so they enter as parameters. -/
def displayResultsHTML (analysis : AnalysisReport)
    (fileSizeStr speedStr execTimeStr : String) : String :=
  "<div class=\"results\"><div class=\"actions\"><button id=\"downloadButton\" class=\"download-btn\">Télécharger l\x27analyse en CSV</button></div><h2>Résumé</h2><p>Nombre de lignes: " ++
  toString analysis.row_count ++
  "</p><p>Nombre de colonnes: " ++
  toString analysis.column_count ++
  "</p><p>Taille du fichier: " ++
  fileSizeStr ++
  "</p><p class=\"execution-time\">Temps d\x27analyse: " ++
  execTimeStr ++
  "</p><p>Vitesse de traitement: " ++
  speedStr ++
  "/s</p><p>Mode d\x27analyse: " ++
  samplingModeText analysis.sample_size ++
  "</p>" ++
  tableHeaderHTML ++
  jsJoin ("") (analysis.columns.map displayRowHTML) ++
  "</tbody></table></div>"

/-- The error markup the click handler writes on a failed analysis
(index.js line 279). -/
def errorDivHTML (msg : String) : String :=
  "<div class=\"error\">Erreur lors de l\x27analyse: " ++ msg ++ "</div>"

/-- Outcome of the analyze-click handler (index.js lines 259-283) once
the file text is loaded: the HTML left in the results area and the final
disabled state of the analyze button. On success the report table is
rendered; on a thrown error only the error div is rendered. The
`finally` block re-enables the button on both paths. -/
def analyzeClickRender (result : Except String AnalysisReport)
    (fileSizeStr speedStr execTimeStr : String) : String × Bool :=
  match result with
  | .ok analysis => (displayResultsHTML analysis fileSizeStr speedStr execTimeStr, false)
  | .error msg => (errorDivHTML msg, false)

/-- A concrete column report with four format examples, exhibiting the
difference between the truncated HTML examples cell and the full CSV
examples cell. -/
def exampleColumnFour : ColumnReport :=
  { name := "c", type_name := "string",
    type_details := { confidence := 1, subtypes := [], format_examples := ["a", "b", "c", "d"] },
    total_count := 4, analyzed_count := 4, unique_values := 4, null_count := 0,
    min_value := some ("a"), max_value := some ("d"), min_length := 1, max_length := 1 }

/-- A concrete column report with absent extrema. -/
def exampleColumnNoExtrema : ColumnReport :=
  { name := "e", type_name := "string",
    type_details := { confidence := 0, subtypes := [], format_examples := [] },
    total_count := 0, analyzed_count := 0, unique_values := 0, null_count := 0,
    min_value := none, max_value := none, min_length := 0, max_length := 0 }

/-- Split a character list at every occurrence of `sep` (kernel-friendly
counterpart of `String.splitOn` on a single character). -/
def splitOnChar (sep : Char) : List Char → List (List Char)
  | [] => [[]]
  | c :: rest =>
    if c = sep then [] :: splitOnChar sep rest
    else
      match splitOnChar sep rest with
      | [] => [[c]]
      | f :: fs => (c :: f) :: fs

/-- Drop one trailing carriage return from a raw line. -/
def stripCR (l : List Char) : List Char :=
  if l.getLast? = some '\r' then l.dropLast else l

/-- Modelled from the spec: the text prefix inspected by the delimiter
detector (wasm engine, §4.1) — the first five raw lines of the document,
or fewer if the file is shorter. -/
def sampleLines (text : String) : List (List Char) :=
  let ls := (splitOnChar '\n' text.data).map stripCR
  let ls := if ls.getLast? = some [] then ls.dropLast else ls
  ls.take 5

/-- Number of fields a naive split of `l` on candidate `c` yields. -/
def fieldCount (l : List Char) (c : Char) : Nat :=
  (splitOnChar c l).length

/-- Modelled from the spec (§4.1): a candidate delimiter scores on a line
sample when every sampled line splits into the same field count, greater
than one; the consistent count is returned for tie-breaking. -/
def consistentCount (ls : List (List Char)) (c : Char) : Option Nat :=
  match ls with
  | [] => none
  | l :: rest =>
    let n := fieldCount l c
    if decide (1 < n) && rest.all (fun l2 => fieldCount l2 c == n) then some n else none

/-- The candidate delimiters of §4.1: comma, semicolon, tab, pipe. -/
def candidateDelimiters : List Char := [',', ';', '\t', '|']

/-- Modelled from the spec: the delimiter detector of the wasm engine
(§4.1), absent from src/; prefers the candidate with the largest
consistent field count and falls back to comma. -/
def detectDelimiter (text : String) : Char :=
  let ls := sampleLines text
  let best := candidateDelimiters.foldl
    (fun acc c =>
      match consistentCount ls c with
      | none => acc
      | some n =>
        match acc with
        | none => some (c, n)
        | some p => if p.2 < n then some (c, n) else acc)
    none
  match best with
  | some p => p.1
  | none => ','

/-- The classified failures of §7. -/
inductive AnalyzeError where
  | emptyInput
  | malformedQuoting
  | invalidConfiguration
deriving DecidableEq

/-- Modelled from the spec: the tokenizer of the wasm engine (§4.2),
absent from src/. Single forward pass over the characters; a field may
be quoted (quote opens only at field start), a doubled quote inside a
quoted field decodes to one quote, delimiter and newlines are literal
inside quotes, both LF and CRLF terminate rows, a trailing empty row
from a final newline is discarded, and an unterminated quote at end of
input is a `malformedQuoting` failure. -/
def tokenizeAux (delim : Char) : List Char → Bool → List Char → List (List Char) →
    List (List (List Char)) → Except AnalyzeError (List (List (List Char)))
  | [], inQ, field, row, rows =>
    if inQ then .error AnalyzeError.malformedQuoting
    else if field.isEmpty && row.isEmpty then .ok rows
    else .ok (rows ++ [row ++ [field]])
  | c :: rest, true, field, row, rows =>
    if c = '"' then
      match rest with
      | '"' :: rest2 => tokenizeAux delim rest2 true (field ++ ['"']) row rows
      | r => tokenizeAux delim r false field row rows
    else tokenizeAux delim rest true (field ++ [c]) row rows
  | c :: rest, false, field, row, rows =>
    if (c == '"') && field.isEmpty then tokenizeAux delim rest true field row rows
    else if c = delim then tokenizeAux delim rest false [] (row ++ [field]) rows
    else if c = '\n' then tokenizeAux delim rest false [] [] (rows ++ [row ++ [field]])
    else if c = '\r' then
      match rest with
      | '\n' :: rest2 => tokenizeAux delim rest2 false [] [] (rows ++ [row ++ [field]])
      | r => tokenizeAux delim r false (field ++ [c]) row rows
    else tokenizeAux delim rest false (field ++ [c]) row rows

/-- Modelled from the spec: row/field tokenization (§4.2) over a whole
document. -/
def tokenize (text : String) (delim : Char) : Except AnalyzeError (List (List String)) :=
  match tokenizeAux delim text.data false [] [] [] with
  | .error e => .error e
  | .ok rows => .ok (rows.map (fun r => r.map String.mk))

/-- The closed `SemanticType` enumeration of §3. -/
inductive SemanticType where
  | integer
  | float
  | boolean
  | date
  | datetime
  | time
  | email
  | url
  | ip
  | string
  | null
deriving DecidableEq

/-- Decimal value of a digit list. -/
def natOfDigits (l : List Char) : Nat :=
  l.foldl (fun n c => n * 10 + (c.toNat - '0'.toNat)) 0

/-- Drop one leading sign character. -/
def stripSign : List Char → List Char
  | '+' :: r => r
  | '-' :: r => r
  | l => l

/-- Modelled from the spec (§4.3): Integer recognizer — optional sign
followed by one or more digits. -/
def isIntegerString (s : String) : Bool :=
  let l := stripSign s.data
  !l.isEmpty && l.all Char.isDigit

/-- Digits with an optional single decimal point and at least one digit. -/
def isMantissa (l : List Char) : Bool :=
  let ip := l.takeWhile Char.isDigit
  match l.dropWhile Char.isDigit with
  | [] => !ip.isEmpty
  | '.' :: fr => fr.all Char.isDigit && (!ip.isEmpty || !fr.isEmpty)
  | _ => false

/-- Modelled from the spec (§4.3, §3): Float recognizer — optional sign,
a digit string with at most one decimal point (plain integers also match,
as §3 requires for a value such as 123), optionally followed by an
exponent marker with a signed digit exponent. -/
def isFloatString (s : String) : Bool :=
  let l := stripSign s.data
  let mant := l.takeWhile (fun c => !(c == 'e' || c == 'E'))
  match l.dropWhile (fun c => !(c == 'e' || c == 'E')) with
  | [] => isMantissa mant
  | _ :: ex =>
    let ed := stripSign ex
    isMantissa mant && !ed.isEmpty && ed.all Char.isDigit

/-- Character-wise lowercase (kernel-friendly `toLowerCase`). -/
def lowerString (s : String) : String :=
  String.mk (s.data.map Char.toLower)

/-- Modelled from the spec (§4.3): Boolean recognizer — case-insensitive
membership in the closed literal set listed there. -/
def isBooleanString (s : String) : Bool :=
  ["true", "false", "1", "0", "yes", "no"].contains (lowerString s)

/-- Gregorian leap-year test. -/
def isLeapYear (y : Nat) : Bool :=
  decide ((y % 4 = 0 ∧ y % 100 ≠ 0) ∨ y % 400 = 0)

/-- Day count of a month, honoring leap years. -/
def daysInMonth (y m : Nat) : Nat :=
  if m = 2 then (if isLeapYear y then 29 else 28)
  else if [4, 6, 9, 11].contains m then 30
  else 31

/-- Modelled from the spec (§4.3): Date recognizer — the fixed
`YYYY-MM-DD` format producing a valid calendar date. -/
def isDateChars : List Char → Bool
  | [y1, y2, y3, y4, '-', m1, m2, '-', d1, d2] =>
    [y1, y2, y3, y4, m1, m2, d1, d2].all Char.isDigit &&
      (let y := natOfDigits [y1, y2, y3, y4]
       let m := natOfDigits [m1, m2]
       let d := natOfDigits [d1, d2]
       decide (1 ≤ m ∧ m ≤ 12 ∧ 1 ≤ d ∧ d ≤ daysInMonth y m))
  | _ => false

/-- Date recognizer over a string. -/
def isDateString (s : String) : Bool :=
  isDateChars s.data

/-- Modelled from the spec (§4.3): Time recognizer — `HH:MM` or
`HH:MM:SS`, hour 0-23, minute and second 0-59. -/
def isTimeChars : List Char → Bool
  | [h1, h2, ':', m1, m2] =>
    [h1, h2, m1, m2].all Char.isDigit &&
      decide (natOfDigits [h1, h2] ≤ 23 ∧ natOfDigits [m1, m2] ≤ 59)
  | [h1, h2, ':', m1, m2, ':', s1, s2] =>
    [h1, h2, m1, m2, s1, s2].all Char.isDigit &&
      decide (natOfDigits [h1, h2] ≤ 23 ∧ natOfDigits [m1, m2] ≤ 59 ∧
        natOfDigits [s1, s2] ≤ 59)
  | _ => false

/-- Time recognizer over a string. -/
def isTimeString (s : String) : Bool :=
  isTimeChars s.data

/-- Modelled from the spec (§4.3): DateTime recognizer — a Date, then
`T` or a space, then a Time. -/
def isDateTimeString (s : String) : Bool :=
  let l := s.data
  let d := l.takeWhile (fun c => !(c == 'T' || c == ' '))
  match l.dropWhile (fun c => !(c == 'T' || c == ' ')) with
  | [] => false
  | _ :: t => isDateChars d && isTimeChars t

/-- Modelled from the spec (§4.3): Email recognizer — a nonempty local
part, one `@`, a nonempty domain containing a dot, and no embedded
whitespace. -/
def isEmailString (s : String) : Bool :=
  let l := s.data
  let loc := l.takeWhile (fun c => !(c == '@'))
  match l.dropWhile (fun c => !(c == '@')) with
  | '@' :: dom =>
    l.all (fun c => !c.isWhitespace) && !loc.isEmpty && !dom.isEmpty &&
      dom.contains '.' && !(dom.contains '@')
  | _ => false

/-- Modelled from the spec (§4.3): Url recognizer — scheme `http`,
`https` or `ftp`, `://`, and a nonempty remainder. -/
def isUrlString (s : String) : Bool :=
  ["http://", "https://", "ftp://"].any
    (fun p => p.data.isPrefixOf s.data && decide (p.length < s.length))

/-- Modelled from the spec (§4.3): Ip recognizer — four dot-separated
decimal octets, each between 0 and 255 (IPv4 only). -/
def isIpString (s : String) : Bool :=
  let parts := splitOnChar '.' s.data
  parts.length == 4 && parts.all
    (fun p => !p.isEmpty && decide (p.length ≤ 3) && p.all Char.isDigit &&
      decide (natOfDigits p ≤ 255))

/-- Modelled from the spec (§3): `Null` is assigned exactly to an
empty/blank raw value (empty or whitespace-only). -/
def isBlank (s : String) : Bool :=
  s.data.all Char.isWhitespace

/-- Pure per-type recognizer dispatch; `string` is the universal
fallback and always matches. -/
def matchesType : SemanticType → String → Bool
  | .integer, s => isIntegerString s
  | .float, s => isFloatString s
  | .boolean, s => isBooleanString s
  | .date, s => isDateString s
  | .datetime, s => isDateTimeString s
  | .time, s => isTimeString s
  | .email, s => isEmailString s
  | .url, s => isUrlString s
  | .ip, s => isIpString s
  | .string, _ => true
  | .null, s => isBlank s

/-- The nine non-String data types, in the §4.3 tie-break enumeration
order (most specific first). -/
def nonStringTypes : List SemanticType :=
  [.integer, .float, .boolean, .date, .datetime, .time, .email, .url, .ip]

/-- Modelled from the spec (§4.3, §3 TypeMatch): the classifier returns
the full set of matched types of one non-null raw value — a pure
function of the value. -/
def classifyValue (s : String) : List SemanticType :=
  (nonStringTypes ++ [SemanticType.string]).filter (fun t => matchesType t s)

/-- Report-level names of the semantic types, as the JavaScript layer
receives them in `type_name`/`subtypes`. -/
def semTypeName : SemanticType → String
  | .integer => "integer"
  | .float => "float"
  | .boolean => "boolean"
  | .date => "date"
  | .datetime => "datetime"
  | .time => "time"
  | .email => "email"
  | .url => "url"
  | .ip => "ip"
  | .string => "string"
  | .null => "null"

/-- Modelled from the spec (§4.4, §9): the per-column accumulator
retains the raw analyzed values (bounded by the sampling cap) together
with the running total of non-missing values; every derived statistic is
computed from them at finalization. -/
structure ColAcc where
  total : Nat
  vals : List String
deriving DecidableEq

/-- Modelled from the spec (§4.5): the sampling controller forwards a
value only while the analyzed count is below the configured cap; with no
cap every value is analyzed. -/
def canAnalyze : Option Nat → Nat → Bool
  | none, _ => true
  | some k, n => decide (n < k)

/-- Modelled from the spec (§4.4, §4.5): consume one cell of one row for
a fixed column — a missing trailing field leaves the accumulator
untouched, a present value always counts toward the total and is
retained for analysis only if the sampling controller admits it. -/
def colStep (cap : Option Nat) (acc : ColAcc) : Option String → ColAcc
  | none => acc
  | some v =>
    if canAnalyze cap acc.vals.length then
      { total := acc.total + 1, vals := acc.vals ++ [v] }
    else
      { total := acc.total + 1, vals := acc.vals }

/-- Accumulator of column `j` after all data rows are consumed. -/
def columnAccFor (cap : Option Nat) (j : Nat) (dataRows : List (List String)) : ColAcc :=
  dataRows.foldl (fun acc row => colStep cap acc (row.get? j)) { total := 0, vals := [] }

/-- Distinct entries of a list in first-occurrence order. -/
def distinctInOrder (l : List String) : List String :=
  l.foldl (fun acc v => if v ∈ acc then acc else acc ++ [v]) []

/-- Modelled from the spec (§4.3): confidence of a type on a column —
the fraction of analyzed non-null values matching it (zero when there
are none). -/
def confidenceOf (t : SemanticType) (nonNullVals : List String) : Rat :=
  if nonNullVals.isEmpty then 0
  else (nonNullVals.countP (fun v => matchesType t v) : Rat) / (nonNullVals.length : Rat)

/-- Modelled from the spec (§4.3): dominant-type resolution — the
non-String type with the highest confidence, ties broken by the
enumeration order of `nonStringTypes`; when the best confidence is zero
the column is String with confidence 1 (or 0 when nothing was
analyzed). -/
def resolveColumn (nonNullVals : List String) : SemanticType × Rat :=
  let best := nonStringTypes.foldl
    (fun acc t =>
      let c := confidenceOf t nonNullVals
      if acc.2 < c then (t, c) else acc)
    (SemanticType.string, 0)
  if best.2 = 0 then (SemanticType.string, if nonNullVals.isEmpty then 0 else 1)
  else best

/-- Parse an optionally signed decimal mantissa (digits with at most one
point) into a rational. -/
def parseMantissa (l : List Char) : Option Rat :=
  let ip := l.takeWhile Char.isDigit
  match l.dropWhile Char.isDigit with
  | [] => if ip.isEmpty then none else some ((natOfDigits ip : Nat) : Rat)
  | '.' :: fr =>
    if (ip.isEmpty && fr.isEmpty) || !fr.all Char.isDigit then none
    else some ((natOfDigits ip : Rat) + (natOfDigits fr : Rat) / ((10 : Rat) ^ fr.length))
  | _ => none

/-- Numeric value of an Integer/Float literal, when the string is one. -/
def parseRatLit (s : String) : Option Rat :=
  let neg := match s.data with | '-' :: _ => true | _ => false
  let l := stripSign s.data
  let mant := l.takeWhile (fun c => !(c == 'e' || c == 'E'))
  match parseMantissa mant, l.dropWhile (fun c => !(c == 'e' || c == 'E')) with
  | none, _ => none
  | some m, [] => some (if neg then -m else m)
  | some m, _ :: ex =>
    let ed := stripSign ex
    if ed.isEmpty || !ed.all Char.isDigit then none
    else
      let f := (10 : Rat) ^ natOfDigits ed
      let v := if (match ex with | '-' :: _ => true | _ => false) then m / f else m * f
      some (if neg then -v else v)

/-- Code-unit comparison of strings (lexicographic). -/
def stringLe (a b : String) : Bool :=
  !(compare a b == Ordering.gt)

/-- Modelled from the spec (§3 min/max semantics): numeric order for an
Integer/Float column (non-numeric stragglers sort below numerics, among
themselves lexicographically), lexicographic order otherwise — for the
ISO date/time formats of this engine lexicographic order coincides with
chronological order. -/
def valueLe (t : SemanticType) (a b : String) : Bool :=
  match t with
  | .integer =>
    (match parseRatLit a, parseRatLit b with
     | some x, some y => decide (x ≤ y)
     | some _, none => false
     | none, some _ => true
     | none, none => stringLe a b)
  | .float =>
    (match parseRatLit a, parseRatLit b with
     | some x, some y => decide (x ≤ y)
     | some _, none => false
     | none, some _ => true
     | none, none => stringLe a b)
  | _ => stringLe a b

/-- Minimum analyzed non-null value under the column's resolved order;
absent when nothing non-null was analyzed. -/
def minValueOf (t : SemanticType) : List String → Option String
  | [] => none
  | v :: rest => some (rest.foldl (fun m x => if valueLe t x m then x else m) v)

/-- Maximum analyzed non-null value under the column's resolved order. -/
def maxValueOf (t : SemanticType) : List String → Option String
  | [] => none
  | v :: rest => some (rest.foldl (fun m x => if valueLe t m x then x else m) v)

/-- Minimum raw length among analyzed non-null values (0 if none). -/
def minLengthOf : List String → Nat
  | [] => 0
  | v :: rest => rest.foldl (fun m x => min m x.length) v.length

/-- Maximum raw length among analyzed non-null values (0 if none). -/
def maxLengthOf : List String → Nat
  | [] => 0
  | v :: rest => rest.foldl (fun m x => max m x.length) v.length

/-- The subtype significance threshold of §4.3 (5%). -/
def subtypeThreshold : Rat := 1 / 20

/-- Modelled from the spec (§4.3, §3 ColumnReport): finalize one column
from its accumulator — resolve the dominant type, compute confidence,
significant subtypes, up to five first-occurrence examples, the counts,
extrema under the resolved order, and length bounds. -/
def finalizeColumn (name : String) (acc : ColAcc) : ColumnReport :=
  let nonNullVals := acc.vals.filter (fun v => !isBlank v)
  let tc := resolveColumn nonNullVals
  { name := name,
    type_name := semTypeName tc.1,
    type_details :=
      { confidence := tc.2,
        subtypes :=
          (nonStringTypes.filter
            (fun u => decide (u ≠ tc.1) &&
              decide (subtypeThreshold ≤ confidenceOf u nonNullVals))).map semTypeName,
        format_examples := (distinctInOrder nonNullVals).take 5 },
    total_count := acc.total,
    analyzed_count := acc.vals.length,
    unique_values := (distinctInOrder nonNullVals).length,
    null_count := acc.vals.countP (fun v => isBlank v),
    min_value := minValueOf tc.1 nonNullVals,
    max_value := maxValueOf tc.1 nonNullVals,
    min_length := minLengthOf nonNullVals,
    max_length := maxLengthOf nonNullVals }

/-- The one recognized analyzer option (§6): `sample_size`, null or an
integer. -/
structure AnalyzerConfig where
  sample_size : Option Int
deriving DecidableEq

/-- Modelled from the spec (§4.6, §3): assemble the document report —
one `ColumnReport` per header, in header order, with the configured
sample size echoed. -/
def buildReport (cfg : AnalyzerConfig) (header : List String)
    (dataRows : List (List String)) : AnalysisReport :=
  { row_count := dataRows.length,
    column_count := header.length,
    sample_size := cfg.sample_size,
    columns := header.enum.map
      (fun p => finalizeColumn p.2 (columnAccFor (cfg.sample_size.map Int.toNat) p.1 dataRows)) }

/-- Orchestration after configuration validation: detect the delimiter,
tokenize, fail on an empty document, otherwise build the report from
the header row and the data rows. -/
def analyzeValidated (cfg : AnalyzerConfig) (text : String) : Except AnalyzeError AnalysisReport :=
  match tokenize text (detectDelimiter text) with
  | .error e => .error e
  | .ok [] => .error AnalyzeError.emptyInput
  | .ok (header :: dataRows) => .ok (buildReport cfg header dataRows)

/-- Modelled from the spec: `CSVAnalyzer.analyze` of the wasm engine
(§4.6, §6, §7), absent from src/ — a pure function of the configuration
and the raw text, failing on an invalid sample size, a malformed quote,
or an empty document, and otherwise returning the full report. -/
def analyze (cfg : AnalyzerConfig) (text : String) : Except AnalyzeError AnalysisReport :=
  match cfg.sample_size with
  | some k =>
    if k ≤ 0 then .error AnalyzeError.invalidConfiguration
    else analyzeValidated cfg text
  | none => analyzeValidated cfg text

/-- A wasm analyzer instance as the page sees it: its immutable
configuration plus a construction generation that distinguishes the
`new CSVAnalyzer(config)` instances successively assigned to the shared
`analyzer` variable of index.js. -/
structure Analyzer where
  gen : Nat
  cfg : AnalyzerConfig
deriving DecidableEq

/-- State of the sampling-configuration UI of `setupUI` plus the shared
`analyzer` binding: the checkbox state, the numeric field's value
(modelled as the integer `parseInt` yields on it), the current analyzer
instance, the next construction generation, and the result of the last
analyze click. -/
structure UIState where
  checked : Bool
  sampleValue : Int
  analyzer : Analyzer
  nextGen : Nat
  lastResult : Option (Except AnalyzeError AnalysisReport)

/-- The user interactions wired up in `setupUI` that touch the analyzer:
the sampling checkbox's change event, the sample-size field's change
event, and an analyze-button click on a loaded file text. -/
inductive UIEvent where
  | toggleSampling (checked : Bool)
  | sampleSizeChange (value : Int)
  | clickAnalyze (content : String)

/-- State after `initializeWasm` and `setupUI` (index.js lines 5-16,
218-226): sampling off, the numeric field at its default 1000, and an
analyzer built from a configuration with `sample_size = null`. -/
def uiInit : UIState :=
  { checked := false,
    sampleValue := 1000,
    analyzer := { gen := 0, cfg := { sample_size := none } },
    nextGen := 1,
    lastResult := none }

/-- The event handlers of index.js lines 229-248 and 259-283: each
sampling change builds a fresh `AnalyzerConfig` and a new `CSVAnalyzer`
(a fresh generation); editing the sample size while sampling is off
leaves the analyzer untouched; an analyze click runs `analyze` on the
current analyzer's configuration and stores the outcome. -/
def stepUI (s : UIState) : UIEvent → UIState
  | .toggleSampling b =>
    { s with
      checked := b,
      analyzer :=
        { gen := s.nextGen,
          cfg := { sample_size := if b then some s.sampleValue else none } },
      nextGen := s.nextGen + 1 }
  | .sampleSizeChange v =>
    if s.checked then
      { s with
        sampleValue := v,
        analyzer := { gen := s.nextGen, cfg := { sample_size := some v } },
        nextGen := s.nextGen + 1 }
    else { s with sampleValue := v }
  | .clickAnalyze content =>
    { s with lastResult := some (analyze s.analyzer.cfg content) }

/-- Run a sequence of UI events from the initial state. -/
def runUI (events : List UIEvent) : UIState :=
  events.foldl stepUI uiInit

/-- A two-row, one-column sample document for witnesses. -/
def sampleCSVText : String := "a\nx\ny\n"

/-- The report the modelled engine produces on `sampleCSVText` with an
unbounded configuration. -/
def sampleReport : AnalysisReport :=
  buildReport { sample_size := none } ["a"] [["x"], ["y"]]

/-- The first (only) column of `sampleReport`. -/
def sampleColumn : ColumnReport :=
  sampleReport.columns.headD exampleColumnNoExtrema

/-! ## Helper lemmas -/

/-- The characters of an appended string are the appended character
lists. -/
theorem strDataAppend (s t : String) : (s ++ t).data = s.data ++ t.data :=
  String.data_append s t

/-- Indexing an appended string inside the left part. -/
theorem dataGetAppendOfSome (s t : String) (n : Nat) (x : Char)
    (h : s.data.get? n = some x) : (s ++ t).data.get? n = some x := by
  rw [strDataAppend]
  obtain ⟨hlt, -⟩ := List.get?_eq_some.mp h
  rw [List.get?_append hlt]
  exact h

/-- A substring embedding survives appending on the right. -/
theorem embedAppendRight (s t x : String) (h : ∃ pre post, s = pre ++ x ++ post) :
    ∃ pre post, s ++ t = pre ++ x ++ post := by
  obtain ⟨p, q, rfl⟩ := h
  exact ⟨p, q ++ t, by rw [String.append_assoc (p ++ x) q t]⟩

/-- `toFixed1` output always contains a decimal point. -/
theorem dotMemToFixed1 (q : Rat) : '.' ∈ (toFixed1 q).data := by
  unfold toFixed1
  rw [strDataAppend, strDataAppend]
  refine List.mem_append_left _ (List.mem_append_right _ ?_)
  decide

/-! ## Claims -/

/-- Claim C1: `exportToCSV` is a pure transformation of the report (a
total Lean function of the `AnalysisReport` value alone, mutating
nothing): its text is the fixed thirteen-field header line followed by
exactly one line per entry of `analysis.columns`, in the same order,
and every row is the semicolon join of thirteen cells each drawn from
the corresponding `ColumnReport`'s fields. -/
theorem exportToCSV_pure_structure (r : AnalysisReport) :
    exportToCSV r
      = "\uFEFF" ++ jsJoin ("\n") (exportHeaderLine :: r.columns.map exportRow)
    ∧ exportHeaderLine = jsJoin (";") exportHeaderFields
    ∧ exportHeaderFields.length = 13
    ∧ (r.columns.map exportRow).length = r.columns.length
    ∧ (∀ i : Nat, (r.columns.map exportRow).get? i = (r.columns.get? i).map exportRow)
    ∧ (∀ c : ColumnReport,
        exportRow c = jsJoin (";") (exportCells c) ∧ (exportCells c).length = 13) := by
  refine ⟨rfl, rfl, rfl, by simp, fun i => ?_, fun c => ⟨rfl, rfl⟩⟩
  simp [List.get?_eq_getElem?, List.getElem?_map]

/-- Claim C8: in the HTML results table the examples cell shows only the
first three entries of `format_examples` (the `slice(0, 3)` of the
source), while the CSV export's examples cell joins the whole list; on
a report with four examples the two cells differ. -/
theorem examples_truncated_html_full_csv (stats : ColumnReport) :
    (displayCellsOf stats).get? 5
      = some (jsJoin (", ") (stats.type_details.format_examples.take 3))
    ∧ (exportCells stats).get? 5
      = some (jsJoin (", ") stats.type_details.format_examples)
    ∧ displayRowHTML stats
      = "<tr>" ++
          jsJoin ("") ((displayCellsOf stats).map (fun cell => "<td>" ++ cell ++ "</td>")) ++
          "</tr>"
    ∧ (displayCellsOf exampleColumnFour).get? 5 ≠ (exportCells exampleColumnFour).get? 5 :=
  ⟨rfl, rfl, rfl, by decide⟩

/-- Claim C10: the export text always begins with the byte-order mark
followed by the header line, its lines are joined with a bare newline,
and a column with an absent minimum or maximum exports an empty cell at
the corresponding position while the HTML table renders a dash there. -/
theorem exportToCSV_bom_and_absent_extrema (r : AnalysisReport) (c : ColumnReport) :
    (∃ rest, exportToCSV r = "\uFEFF" ++ exportHeaderLine ++ rest)
    ∧ exportToCSV r
      = "\uFEFF" ++ jsJoin ("\n") (exportHeaderLine :: r.columns.map exportRow)
    ∧ (c.min_value = none →
        (exportCells c).get? 9 = some "" ∧ (displayCellsOf c).get? 9 = some ("-"))
    ∧ (c.max_value = none →
        (exportCells c).get? 10 = some "" ∧ (displayCellsOf c).get? 10 = some ("-")) := by
  refine ⟨?_, rfl, fun h => ?_, fun h => ?_⟩
  · rcases hc : r.columns with _ | ⟨a, l⟩
    · exact ⟨"", by simp [exportToCSV, hc, jsJoin, String.append_empty]⟩
    · exact ⟨"\n" ++ jsJoin ("\n") ((a :: l).map exportRow),
        by simp [exportToCSV, hc, jsJoin, String.append_assoc]⟩
  · constructor <;> simp [exportCells, displayCellsOf, h, jsOr]
  · constructor <;> simp [exportCells, displayCellsOf, h, jsOr]

/-- Witness for C10 at a concrete column with absent extrema. -/
theorem exportToCSV_absent_extrema_witness :
    ((exportCells exampleColumnNoExtrema).get? 9 = some ""
      ∧ (displayCellsOf exampleColumnNoExtrema).get? 9 = some ("-"))
    ∧ ((exportCells exampleColumnNoExtrema).get? 10 = some ""
      ∧ (displayCellsOf exampleColumnNoExtrema).get? 10 = some ("-")) := by
  obtain ⟨-, -, h9, h10⟩ :=
    exportToCSV_bom_and_absent_extrema ⟨0, 0, none, []⟩ exampleColumnNoExtrema
  exact ⟨h9 rfl, h10 rfl⟩

/-- Claim C6: the rendered summary echoes the report's sampling mode —
the sampling message with the configured cap for a non-null positive
`sample_size`, the full-analysis message for a null one — and that text
is embedded in the document summary produced by `displayResults`. -/
theorem summary_sampling_mode_echoed (a : AnalysisReport) (fs sp et : String) :
    (a.sample_size = none → samplingModeText a.sample_size = "Analyse complète")
    ∧ (∀ n : Int, a.sample_size = some n → 0 < n →
        samplingModeText a.sample_size
          = "Échantillonnage (" ++ toString n ++ " valeurs max)")
    ∧ (∃ pre post,
        displayResultsHTML a fs sp et = pre ++ samplingModeText a.sample_size ++ post) := by
  refine ⟨fun h => by rw [h]; rfl, fun n hn hpos => ?_, ?_⟩
  · rw [hn]
    have hne : ¬ n = 0 := by omega
    simp [samplingModeText, hne]
  · unfold displayResultsHTML
    apply embedAppendRight
    apply embedAppendRight
    apply embedAppendRight
    apply embedAppendRight
    exact ⟨_, "", (String.append_empty _).symm⟩

/-- Witness for C6 at concrete reports with null and positive caps. -/
theorem summary_sampling_mode_witness :
    samplingModeText (none : Option Int) = "Analyse complète"
    ∧ samplingModeText (some (50 : Int))
      = "Échantillonnage (" ++ toString (50 : Int) ++ " valeurs max)" :=
  ⟨(summary_sampling_mode_echoed ⟨0, 0, none, []⟩ "" "" "").1 rfl,
   (summary_sampling_mode_echoed ⟨0, 0, some 50, []⟩ "" "" "").2.1 50 rfl (by decide)⟩

/-- Claim C4: when `analyze` throws, the click handler leaves exactly
the error div — containing the thrown message, with no report table and
no partial results — in the results area, and the analyze button ends
re-enabled on the error path as on the success path; the error markup
can never coincide with a rendered report. -/
theorem analyze_error_renders_only_message (msg fs sp et : String) (a : AnalysisReport) :
    analyzeClickRender (Except.error msg) fs sp et = (errorDivHTML msg, false)
    ∧ errorDivHTML msg
      = "<div class=\"error\">Erreur lors de l\x27analyse: " ++ msg ++ "</div>"
    ∧ (analyzeClickRender (Except.ok a) fs sp et).2 = false
    ∧ errorDivHTML msg ≠ displayResultsHTML a fs sp et := by
  refine ⟨rfl, rfl, rfl, fun hEq => ?_⟩
  have h1 : (errorDivHTML msg).data.get? 12 = some 'e' := by
    unfold errorDivHTML
    apply dataGetAppendOfSome
    apply dataGetAppendOfSome
    decide
  have h2 : (displayResultsHTML a fs sp et).data.get? 12 = some 'r' := by
    unfold displayResultsHTML
    repeat apply dataGetAppendOfSome
    decide
  rw [hEq] at h1
  rw [h2] at h1
  exact absurd h1 (by decide)

/-- Claim C9: `formatAnalyzedValues` yields the exact `(100%)` form
precisely when the two counts are equal — in particular a column with
zero analyzed and zero total values displays as `0 (100%)` with no
division performed — and only on unequal counts does it compute the
`(analyzed / total) * 100` percentage to one decimal. -/
theorem formatAnalyzedValues_hundred_iff (analyzed total : Nat) :
    (formatAnalyzedValues analyzed total = toString analyzed ++ " (100%)" ↔ analyzed = total)
    ∧ (analyzed ≠ total →
        formatAnalyzedValues analyzed total
          = toString analyzed ++ " (" ++
              toFixed1 ((analyzed : Rat) / (total : Rat) * 100) ++ "%)")
    ∧ formatAnalyzedValues 0 0 = "0 (100%)" := by
  refine ⟨⟨fun h => ?_, fun h => by simp [formatAnalyzedValues, h]⟩,
    fun h => by rw [formatAnalyzedValues, if_neg h], by decide⟩
  by_contra hne
  rw [formatAnalyzedValues, if_neg hne] at h
  have hd := congrArg String.data h
  simp only [strDataAppend] at hd
  rw [List.append_assoc, List.append_assoc] at hd
  have h2 := List.append_cancel_left hd
  have h3 : ([' ', '(', '1', '0', '0', '%', ')'] : List Char)
      = [' ', '('] ++ (['1', '0', '0'] ++ ['%', ')']) := by decide
  rw [h3] at h2
  have h4 := List.append_cancel_left h2
  have h5 := List.append_cancel_right h4
  have h6 := dotMemToFixed1 ((analyzed : Rat) / (total : Rat) * 100)
  rw [h5] at h6
  exact absurd h6 (by decide)

/-- Witness for C9 at unequal and equal concrete counts. -/
theorem formatAnalyzedValues_hundred_witness :
    formatAnalyzedValues 2 4
      = toString 2 ++ " (" ++ toFixed1 (((2 : Nat) : Rat) / ((4 : Nat) : Rat) * 100) ++ "%)"
    ∧ formatAnalyzedValues 3 3 = toString 3 ++ " (100%)" :=
  ⟨(formatAnalyzedValues_hundred_iff 2 4).2.1 (by decide),
   (formatAnalyzedValues_hundred_iff 3 3).1.mpr rfl⟩

/-- One UI step preserves the correspondence between the analyzer's
configuration and the sampling controls. -/
theorem stepUI_config_inv (s : UIState) (e : UIEvent)
    (h : s.analyzer.cfg.sample_size = if s.checked then some s.sampleValue else none) :
    (stepUI s e).analyzer.cfg.sample_size
      = if (stepUI s e).checked then some (stepUI s e).sampleValue else none := by
  cases e with
  | toggleSampling b => simp [stepUI]
  | sampleSizeChange v =>
    by_cases hc : s.checked
    · simp [stepUI, hc]
    · simpa [stepUI, hc] using h
  | clickAnalyze content => simpa [stepUI] using h

/-- The configuration correspondence holds along any event sequence. -/
theorem foldlUI_config_inv (events : List UIEvent) :
    ∀ s : UIState,
      s.analyzer.cfg.sample_size = (if s.checked then some s.sampleValue else none) →
      (events.foldl stepUI s).analyzer.cfg.sample_size
        = if (events.foldl stepUI s).checked
          then some (events.foldl stepUI s).sampleValue else none := by
  induction events with
  | nil => intro s h; simpa using h
  | cons e es ih => intro s h; exact ih (stepUI s e) (stepUI_config_inv s e h)

/-- Claim C2: in every reachable UI state — including the initial state
reached after `initializeWasm`, before any toggle interaction — the
current analyzer is built from a configuration whose `sample_size` is
null while sampling is disabled and is the integer parsed from the
numeric input field while sampling is enabled. -/
theorem analyzer_config_follows_ui (events : List UIEvent) :
    (runUI events).analyzer.cfg.sample_size
      = (if (runUI events).checked then some ((runUI events).sampleValue) else none)
    ∧ uiInit.analyzer.cfg.sample_size = none
    ∧ uiInit.checked = false :=
  ⟨foldlUI_config_inv events uiInit rfl, rfl, rfl⟩

/-- One UI step preserves the bound between the live analyzer's
generation and the next construction generation. -/
theorem stepUI_gen_lt (s : UIState) (e : UIEvent) (h : s.analyzer.gen < s.nextGen) :
    (stepUI s e).analyzer.gen < (stepUI s e).nextGen := by
  cases e with
  | toggleSampling b => simp [stepUI]
  | sampleSizeChange v =>
    by_cases hc : s.checked
    · simp [stepUI, hc]
    · simpa [stepUI, hc] using h
  | clickAnalyze content => simpa [stepUI] using h

/-- The generation bound holds along any event sequence. -/
theorem foldlUI_gen_lt (events : List UIEvent) :
    ∀ s : UIState, s.analyzer.gen < s.nextGen →
      (events.foldl stepUI s).analyzer.gen < (events.foldl stepUI s).nextGen := by
  induction events with
  | nil => intro s h; simpa using h
  | cons e es ih => intro s h; exact ih (stepUI s e) (stepUI_gen_lt s e h)

/-- The live analyzer's generation is below the next generation in
every reachable state. -/
theorem runUI_gen_lt (events : List UIEvent) :
    (runUI events).analyzer.gen < (runUI events).nextGen :=
  foldlUI_gen_lt events uiInit (by decide)

/-- Claim C3: the configuration bound to an analyzer instance is never
mutated after construction — in any reachable state, toggling sampling
(and, while sampling is on, editing the sample size) installs a
freshly constructed analyzer of a new generation, built from a fresh
configuration holding the new settings; the previous instance's
configuration value is untouched. -/
theorem analyzer_rebuilt_not_mutated (events : List UIEvent) (b : Bool) (v : Int) :
    ((stepUI (runUI events) (UIEvent.toggleSampling b)).analyzer.gen
        ≠ (runUI events).analyzer.gen
      ∧ (stepUI (runUI events) (UIEvent.toggleSampling b)).analyzer.cfg
        = { sample_size := if b then some ((runUI events).sampleValue) else none })
    ∧ ((runUI events).checked = true →
        (stepUI (runUI events) (UIEvent.sampleSizeChange v)).analyzer.gen
          ≠ (runUI events).analyzer.gen
        ∧ (stepUI (runUI events) (UIEvent.sampleSizeChange v)).analyzer.cfg
          = { sample_size := some v }) := by
  have hlt := runUI_gen_lt events
  refine ⟨⟨?_, rfl⟩, fun hc => ⟨?_, ?_⟩⟩
  · simp only [stepUI]
    omega
  · simp only [stepUI, hc, if_true]
    omega
  · simp only [stepUI, hc, if_true]

/-- Witness for C3 after enabling sampling concretely. -/
theorem analyzer_rebuilt_witness :
    (stepUI (runUI [UIEvent.toggleSampling true]) (UIEvent.sampleSizeChange 500)).analyzer.gen
      ≠ (runUI [UIEvent.toggleSampling true]).analyzer.gen
    ∧ (stepUI (runUI [UIEvent.toggleSampling true]) (UIEvent.sampleSizeChange 500)).analyzer.cfg
      = { sample_size := some 500 } :=
  (analyzer_rebuilt_not_mutated [UIEvent.toggleSampling true] true 500).2 rfl

/-- Claim C5: an analyze click neither replaces nor mutates the shared
analyzer, its stored outcome is exactly `analyze` applied to the
current configuration and the text, and a second click on the same text
with the configuration unchanged stores an equal report — analysis is a
pure function of the text and the configuration, with no state carried
between calls. -/
theorem analyze_pure_across_clicks (events : List UIEvent) (content : String) :
    (stepUI (runUI events) (UIEvent.clickAnalyze content)).analyzer = (runUI events).analyzer
    ∧ (stepUI (runUI events) (UIEvent.clickAnalyze content)).lastResult
        = some (analyze ((runUI events).analyzer.cfg) content)
    ∧ (stepUI (stepUI (runUI events) (UIEvent.clickAnalyze content))
          (UIEvent.clickAnalyze content)).lastResult
        = (stepUI (runUI events) (UIEvent.clickAnalyze content)).lastResult :=
  ⟨rfl, rfl, rfl⟩

/-- Folding the distinct-collection step grows the accumulator by at
most one entry per input. -/
theorem distinctAux_length_le (l : List String) :
    ∀ seen : List String,
      (l.foldl (fun acc v => if v ∈ acc then acc else acc ++ [v]) seen).length
        ≤ seen.length + l.length := by
  induction l with
  | nil => intro seen; simp
  | cons x xs ih =>
    intro seen
    have h1 : (if x ∈ seen then seen else seen ++ [x]).length ≤ seen.length + 1 := by
      split <;> simp
    have h2 := ih (if x ∈ seen then seen else seen ++ [x])
    simp only [List.foldl_cons, List.length_cons]
    omega

/-- There are at most as many distinct values as values. -/
theorem distinctInOrder_length_le (l : List String) :
    (distinctInOrder l).length ≤ l.length := by
  have h := distinctAux_length_le l []
  simpa [distinctInOrder] using h

/-- One accumulator step keeps the analyzed-value count below the
total. -/
theorem colStep_vals_le_total (cap : Option Nat) (acc : ColAcc) (f : Option String)
    (h : acc.vals.length ≤ acc.total) :
    (colStep cap acc f).vals.length ≤ (colStep cap acc f).total := by
  cases f with
  | none => simpa [colStep] using h
  | some v =>
    simp only [colStep]
    split <;> simp <;> omega

/-- The finished accumulator of any column analyzes at most as many
values as it counts. -/
theorem columnAccFor_vals_le_total (cap : Option Nat) (j : Nat)
    (dataRows : List (List String)) :
    (columnAccFor cap j dataRows).vals.length ≤ (columnAccFor cap j dataRows).total := by
  have main : ∀ (rows : List (List String)) (acc : ColAcc),
      acc.vals.length ≤ acc.total →
      (rows.foldl (fun a row => colStep cap a (row.get? j)) acc).vals.length
        ≤ (rows.foldl (fun a row => colStep cap a (row.get? j)) acc).total := by
    intro rows
    induction rows with
    | nil => intro acc h; simpa using h
    | cons r rs ih => intro acc h; exact ih (colStep cap acc (r.get? j)) (colStep_vals_le_total cap acc (r.get? j) h)
  exact main dataRows { total := 0, vals := [] } (by simp)

/-- Finalizing any accumulator whose analyzed count is bounded by its
total yields a column report satisfying the three count invariants. -/
theorem finalizeColumn_count_invariants (name : String) (acc : ColAcc)
    (h : acc.vals.length ≤ acc.total) :
    (finalizeColumn name acc).analyzed_count ≤ (finalizeColumn name acc).total_count
    ∧ (finalizeColumn name acc).unique_values ≤ (finalizeColumn name acc).analyzed_count
    ∧ (finalizeColumn name acc).null_count ≤ (finalizeColumn name acc).analyzed_count := by
  refine ⟨?_, ?_, ?_⟩
  · simpa [finalizeColumn] using h
  · simp only [finalizeColumn]
    calc (distinctInOrder (acc.vals.filter (fun v => !isBlank v))).length
        ≤ (acc.vals.filter (fun v => !isBlank v)).length := distinctInOrder_length_le _
      _ ≤ acc.vals.length := List.length_filter_le _ _
  · simp only [finalizeColumn]
    exact List.countP_le_length _

/-- Every column of an assembled report satisfies the three count
invariants. -/
theorem buildReport_column_invariants (cfg : AnalyzerConfig) (header : List String)
    (dataRows : List (List String)) (c : ColumnReport)
    (hc : c ∈ (buildReport cfg header dataRows).columns) :
    c.analyzed_count ≤ c.total_count ∧ c.unique_values ≤ c.analyzed_count
    ∧ c.null_count ≤ c.analyzed_count := by
  simp only [buildReport] at hc
  rw [List.mem_map] at hc
  obtain ⟨p, hp, rfl⟩ := hc
  exact finalizeColumn_count_invariants p.2 _
    (columnAccFor_vals_le_total (cfg.sample_size.map Int.toNat) p.1 dataRows)

/-- A successful validated analysis yields an assembled report. -/
theorem analyzeValidated_ok (cfg : AnalyzerConfig) (text : String) (rep : AnalysisReport)
    (h : analyzeValidated cfg text = .ok rep) :
    ∃ header dataRows, rep = buildReport cfg header dataRows := by
  unfold analyzeValidated at h
  rcases htok : tokenize text (detectDelimiter text) with e | rows
  · rw [htok] at h; cases h
  · rw [htok] at h
    cases rows with
    | nil => cases h
    | cons hd tl =>
      simp only [Except.ok.injEq] at h
      exact ⟨hd, tl, h.symm⟩

/-- A successful analysis yields an assembled report. -/
theorem analyze_ok_buildReport (cfg : AnalyzerConfig) (text : String) (rep : AnalysisReport)
    (h : analyze cfg text = .ok rep) :
    ∃ header dataRows, rep = buildReport cfg header dataRows := by
  unfold analyze at h
  rcases hss : cfg.sample_size with _ | k <;> rw [hss] at h <;> dsimp only at h
  · exact analyzeValidated_ok cfg text rep h
  · by_cases hk : k ≤ 0
    · rw [if_pos hk] at h; cases h
    · rw [if_neg hk] at h; exact analyzeValidated_ok cfg text rep h

/-- Claim C7: for every input document and configuration, every column
of a successfully produced report satisfies
`analyzed_count ≤ total_count`, `unique_values ≤ analyzed_count` and
`null_count ≤ analyzed_count`. -/
theorem analyze_count_invariants (cfg : AnalyzerConfig) (text : String)
    (rep : AnalysisReport) (h : analyze cfg text = .ok rep) :
    ∀ c ∈ rep.columns,
      c.analyzed_count ≤ c.total_count ∧ c.unique_values ≤ c.analyzed_count
      ∧ c.null_count ≤ c.analyzed_count := by
  intro c hc
  obtain ⟨header, dataRows, rfl⟩ := analyze_ok_buildReport cfg text rep h
  exact buildReport_column_invariants cfg header dataRows c hc

/-- Witness for C7 on a concrete successful analysis. -/
theorem analyze_count_invariants_witness :
    sampleColumn.analyzed_count ≤ sampleColumn.total_count
    ∧ sampleColumn.unique_values ≤ sampleColumn.analyzed_count
    ∧ sampleColumn.null_count ≤ sampleColumn.analyzed_count :=
  analyze_count_invariants { sample_size := none } sampleCSVText sampleReport rfl
    sampleColumn
    (by rw [show sampleReport.columns = [sampleColumn] from rfl]
        exact List.mem_singleton.mpr rfl)
